import Mathlib

/-
Shallow embedding of the rocket-education video capture controller.

The repository holds two variants of the recording controller:
  - a legacy variant (src/recording_manager.py, with an identical copy of
    the class inside src/capture_video.py), whose start_recording has no
    exception handler around the device bring-up sequence;
  - the containerized service variant (src/video-capture-service/
    recording_manager.py, imported by src/video-capture-service/
    api_server.py), whose start_recording wraps the device bring-up in
    try/except and clears the handle fields on failure before re-raising.

State is the RecordingState object.  The threading lock serializes every
operation on it, so each operation is modelled as an atomic state
transformer.  Device calls that can raise are driven by an explicit
failure-point argument; wall-clock readings and filesystem observations
(os.path.exists, os.path.getsize) are explicit arguments as well.
-/

/-- The fields of the Python RecordingState object.  The lock is modelled by
treating each operation as atomic; the device objects (picam2, encoder,
output) and the monitor thread are opaque, so those fields only record
whether the handle is set (None versus an object). -/
structure RecState where
  is_recording : Bool
  recording_id : Option String
  picam2 : Option Unit
  encoder : Option Unit
  output : Option Unit
  filename : Option String
  start_time : Option Nat
  duration : Option Nat
  max_file_size : Option Nat
  monitor_thread : Option Unit
  deriving DecidableEq

/-- RecordingState.__init__ : nothing set, not recording. -/
def initialState : RecState :=
  { is_recording := false, recording_id := none, picam2 := none, encoder := none,
    output := none, filename := none, start_time := none, duration := none,
    max_file_size := none, monitor_thread := none }

/-- Exceptions start_recording can raise: ValueError when a recording is
already in progress, and any device exception otherwise (both variants
re-raise device exceptions to the caller). -/
inductive StartExn where
  | alreadyRecording
  | deviceError
  deriving DecidableEq

/-- The points of the device bring-up sequence inside start_recording at
which a device exception can be raised, identified by which handle fields
have already been assigned when the exception occurs.  preOpen covers every
failure before self.picam2 is assigned: the device-file check, the
libcamera camera-info check and the Picamera2 constructor itself. -/
inductive DevFail where
  | preOpen
  | configure
  | encoderInit
  | outputInit
  | camStart
  | camRecord
  deriving DecidableEq

/-- RecordingState.start_recording of the legacy variant
(src/recording_manager.py lines 29-58, and the identical copy in
src/capture_video.py lines 33-61).  There is no exception handler, so a
device exception propagates with whatever fields were already assigned at
the point of failure. -/
def start_recording_legacy (s : RecState) (recording_id filename : String)
    (duration : Option Nat) (max_file_size : Option Nat) (now : Nat)
    (fail : Option DevFail) : Except StartExn Unit × RecState :=
  if s.is_recording then (Except.error StartExn.alreadyRecording, s)
  else
    let s1 : RecState :=
      { s with recording_id := some recording_id, filename := some filename,
               duration := duration, max_file_size := max_file_size,
               start_time := some now }
    match fail with
    | some DevFail.preOpen => (Except.error StartExn.deviceError, s1)
    | some DevFail.configure =>
        (Except.error StartExn.deviceError, { s1 with picam2 := some () })
    | some DevFail.encoderInit =>
        (Except.error StartExn.deviceError, { s1 with picam2 := some () })
    | some DevFail.outputInit =>
        (Except.error StartExn.deviceError,
         { s1 with picam2 := some (), encoder := some () })
    | some DevFail.camStart =>
        (Except.error StartExn.deviceError,
         { s1 with picam2 := some (), encoder := some (), output := some () })
    | some DevFail.camRecord =>
        (Except.error StartExn.deviceError,
         { s1 with picam2 := some (), encoder := some (), output := some () })
    | none =>
        (Except.ok (),
         { s1 with picam2 := some (), encoder := some (), output := some (),
                   is_recording := true, monitor_thread := some () })

/-- The except-branch of the service variant of start_recording: reset
is_recording, stop the camera best-effort (its own exception is swallowed
by the inner bare except) and clear picam2, clear encoder and output, then
re-raise. -/
def cleanupOnStartError (s : RecState) : RecState :=
  { s with is_recording := false, picam2 := none, encoder := none, output := none }

/-- RecordingState.start_recording of the service variant
(src/video-capture-service/recording_manager.py lines 35-110).  The device
bring-up runs inside try/except; on any exception the handler clears
is_recording together with the three handle fields and re-raises. -/
def start_recording_vcs (s : RecState) (recording_id filename : String)
    (duration : Option Nat) (max_file_size : Option Nat) (now : Nat)
    (fail : Option DevFail) : Except StartExn Unit × RecState :=
  if s.is_recording then (Except.error StartExn.alreadyRecording, s)
  else
    let s1 : RecState :=
      { s with recording_id := some recording_id, filename := some filename,
               duration := duration, max_file_size := max_file_size,
               start_time := some now }
    match fail with
    | some DevFail.preOpen =>
        (Except.error StartExn.deviceError, cleanupOnStartError s1)
    | some DevFail.configure =>
        (Except.error StartExn.deviceError,
         cleanupOnStartError { s1 with picam2 := some () })
    | some DevFail.encoderInit =>
        (Except.error StartExn.deviceError,
         cleanupOnStartError { s1 with picam2 := some () })
    | some DevFail.outputInit =>
        (Except.error StartExn.deviceError,
         cleanupOnStartError { s1 with picam2 := some (), encoder := some () })
    | some DevFail.camStart =>
        (Except.error StartExn.deviceError,
         cleanupOnStartError
           { s1 with picam2 := some (), encoder := some (), output := some () })
    | some DevFail.camRecord =>
        (Except.error StartExn.deviceError,
         cleanupOnStartError
           { s1 with picam2 := some (), encoder := some (), output := some () })
    | none =>
        (Except.ok (),
         { s1 with picam2 := some (), encoder := some (), output := some (),
                   is_recording := true, monitor_thread := some () })

/-- The picam2.stop_recording(); picam2.stop() calls inside stop_recording:
executed only when picam2 is set, and they may raise. -/
def deviceStopCalls (hasPicam devStopFails : Bool) : Except Unit Unit :=
  if hasPicam && devStopFails then Except.error () else Except.ok ()

/-- RecordingState.stop_recording, identical in both variants
(src/recording_manager.py lines 60-80, src/capture_video.py lines 63-82,
src/video-capture-service/recording_manager.py lines 112-132): returns None
early when not recording; otherwise a device error from the stop calls is
caught and printed, and the finally block unconditionally clears
is_recording, picam2, encoder and output; the saved recording id is
returned on both paths. -/
def stop_recording (s : RecState) (devStopFails : Bool) : Option String × RecState :=
  if !s.is_recording then (none, s)
  else
    let recording_id := s.recording_id
    let cleared : RecState :=
      { s with is_recording := false, picam2 := none, encoder := none, output := none }
    match deviceStopCalls s.picam2.isSome devStopFails with
    | Except.ok _ => (recording_id, cleared)
    | Except.error _ => (recording_id, cleared)

/-- The file-size block of one _monitor_recording iteration: it runs only
when max_file_size is set, filename is truthy (set and non-empty) and
os.path.exists returned true; os.path.getsize may raise (statResult = none),
which is printed and treated as not exceeded, with the loop continuing. -/
def monitor_size_check (s : RecState) (fileExists : Bool) (statResult : Option Nat)
    (devStopFails : Bool) : RecState × Bool :=
  match s.max_file_size, s.filename with
  | some m, some f =>
      if !f.isEmpty && fileExists then
        match statResult with
        | some file_size =>
            if m ≤ file_size then ((stop_recording s devStopFails).2, true)
            else (s, false)
        | none => (s, false)
      else (s, false)
  | _, _ => (s, false)

/-- One iteration of RecordingState._monitor_recording, identical in all
variants: the pair holds the state after the iteration and whether the loop
ends (the while condition observed is_recording false, or a limit fired and
the body executed break).  now, fileExists and statResult are the wall
clock and filesystem observations of this iteration; the body re-reads
every session field from the current shared state, nothing was captured at
spawn time.  The duration branch requires start_time to be set, which every
start assigns before any watchdog runs. -/
def monitor_recording_tick (s : RecState) (now : Nat) (fileExists : Bool)
    (statResult : Option Nat) (devStopFails : Bool) : RecState × Bool :=
  if !s.is_recording then (s, true)
  else
    match s.duration, s.start_time with
    | some d, some st =>
        if d ≤ now - st then ((stop_recording s devStopFails).2, true)
        else monitor_size_check s fileExists statResult devStopFails
    | _, _ => monitor_size_check s fileExists statResult devStopFails

/-- HTTP outcome of an endpoint call: a 200 with the recording id, or an
HTTPException with status and detail.  Details that the code builds with an
f-string are modelled by their static prefix. -/
inductive HttpResp where
  | ok (recording_id : String)
  | err (status : Nat) (detail : String)
  deriving DecidableEq

/-- POST /record/start of src/capture_video.py (lines 127-164).  The
HTTPException(409) raised at the lock check sits inside the same try whose
only handlers are except ValueError and except Exception; HTTPException is
not a ValueError, so the blanket handler catches it and re-raises it as a
500.  A ValueError from start_recording maps to 409, any other exception
from it to 500.  This endpoint drives the legacy RecordingState defined in
the same file. -/
def start_endpoint_capture_video (s : RecState) (recording_id filepath : String)
    (duration max_file_size : Option Nat) (now : Nat) (fail : Option DevFail) :
    HttpResp × RecState :=
  if s.is_recording then
    (HttpResp.err 500 "Failed to start recording", s)
  else
    match start_recording_legacy s recording_id filepath duration max_file_size now fail with
    | (Except.ok _, s1) => (HttpResp.ok recording_id, s1)
    | (Except.error StartExn.alreadyRecording, s1) =>
        (HttpResp.err 409 "Recording already in progress", s1)
    | (Except.error StartExn.deviceError, s1) =>
        (HttpResp.err 500 "Failed to start recording", s1)

/-- POST /record/start of src/video-capture-service/api_server.py
(lines 71-119): the HTTPException(409) from the lock check is re-raised
unchanged by the except HTTPException handler, the inner handlers map a
ValueError from start_recording to 409 and any other exception from it to
500.  This endpoint drives the service RecordingState. -/
def start_endpoint_api_server (s : RecState) (recording_id filepath : String)
    (duration max_file_size : Option Nat) (now : Nat) (fail : Option DevFail) :
    HttpResp × RecState :=
  if s.is_recording then
    (HttpResp.err 409 "Recording already in progress", s)
  else
    match start_recording_vcs s recording_id filepath duration max_file_size now fail with
    | (Except.ok _, s1) => (HttpResp.ok recording_id, s1)
    | (Except.error StartExn.alreadyRecording, s1) =>
        (HttpResp.err 409 "Recording already in progress", s1)
    | (Except.error StartExn.deviceError, s1) =>
        (HttpResp.err 500 "Failed to start recording", s1)

/-- POST /record/stop, identical in src/capture_video.py (lines 166-192)
and src/video-capture-service/api_server.py (lines 121-147).  sLock is the
state read under the lock for the 404 check and for saving the id; the lock
is then released, so stop_recording runs against a possibly different state
sNow (the watchdog may have fired in between).  The endpoint itself never
mutates state except through stop_recording. -/
def stop_endpoint (sLock sNow : RecState) (devStopFails : Bool) : HttpResp × RecState :=
  if !sLock.is_recording then (HttpResp.err 404 "No recording in progress", sNow)
  else
    let recording_id := sLock.recording_id
    let r := stop_recording sNow devStopFails
    if r.1 = none ∨ r.1 ≠ recording_id then
      (HttpResp.err 500 "Error stopping recording", r.2)
    else
      (HttpResp.ok (recording_id.getD ""), r.2)

/-- The call shape Stop(expectedSessionId) of the spec, as it lands on this
code: stop_recording takes no expected-session argument, so a caller that
holds an expected session id can only call stop_recording(), which never
sees that id. -/
def stop_with_expected (_expectedSessionId : Option String) (s : RecState)
    (devStopFails : Bool) : Option String × RecState :=
  stop_recording s devStopFails

/-- States of the service-variant RecordingState reachable from __init__ by
completed start_recording calls (successful or failed, at any failure
point) and stop_recording calls (including watchdog-initiated ones, which
go through stop_recording). -/
inductive ReachableVCS : RecState → Prop where
  | init : ReachableVCS initialState
  | start (s : RecState) (recording_id filename : String)
      (duration max_file_size : Option Nat) (now : Nat) (fail : Option DevFail) :
      ReachableVCS s →
      ReachableVCS (start_recording_vcs s recording_id filename duration max_file_size now fail).2
  | stop (s : RecState) (devStopFails : Bool) :
      ReachableVCS s → ReachableVCS (stop_recording s devStopFails).2

/-- A representative Active state: session A recording to fileA.mp4 with no
limits set. -/
def activeA : RecState :=
  { is_recording := true, recording_id := some "A", picam2 := some (),
    encoder := some (), output := some (), filename := some "fileA.mp4",
    start_time := some 50, duration := none, max_file_size := none,
    monitor_thread := some () }

/-- An Active state for session B with duration limit 2 and start time 100,
recording to fileB.mp4. -/
def activeB : RecState :=
  { is_recording := true, recording_id := some "B", picam2 := some (),
    encoder := some (), output := some (), filename := some "fileB.mp4",
    start_time := some 100, duration := some 2, max_file_size := none,
    monitor_thread := some () }

/-- State after starting session A at time 0 with duration limit 1000 in
the service variant. -/
def afterStartA : RecState :=
  (start_recording_vcs initialState "A" "fileA.mp4" (some 1000) none 0 none).2

/-- State after an external caller stopped session A. -/
def afterStopA : RecState :=
  (stop_recording afterStartA false).2

/-- State after session B started at time 100 with duration limit 2, while
the watchdog thread spawned for session A may still be running. -/
def afterStartB : RecState :=
  (start_recording_vcs afterStopA "B" "fileB.mp4" (some 2) none 100 none).2

/-- Helper: stop_recording on an Active state always returns the stored id
and the cleared state, whether or not the device stop calls raise. -/
theorem stop_recording_active (s : RecState) (sf : Bool) (h : s.is_recording = true) :
    stop_recording s sf =
      (s.recording_id,
       { s with is_recording := false, picam2 := none, encoder := none, output := none }) := by
  unfold stop_recording
  rw [h]
  cases deviceStopCalls s.picam2.isSome sf <;> simp

/-- Helper: stop_recording on a non-Active state is the identity no-op. -/
theorem stop_recording_idle (s : RecState) (sf : Bool) (h : s.is_recording = false) :
    stop_recording s sf = (none, s) := by
  unfold stop_recording
  rw [h]
  simp

/-- C5: Stop is idempotent: on an Active state stop_recording returns that
session id and leaves state Idle; an immediately repeated stop_recording,
and stop_recording in any state with no Active session, returns none
without raising and without changing state. -/
theorem stop_recording_idempotent (s : RecState) (rid : String) (sf sg : Bool)
    (h : s.is_recording = true) (hid : s.recording_id = some rid) :
    (stop_recording s sf).1 = some rid ∧
    (stop_recording s sf).2.is_recording = false ∧
    stop_recording (stop_recording s sf).2 sg = (none, (stop_recording s sf).2) ∧
    (∀ t : RecState, ∀ g : Bool, t.is_recording = false → stop_recording t g = (none, t)) := by
  have h1 := stop_recording_active s sf h
  refine ⟨?_, ?_, ?_, ?_⟩
  · rw [h1]; exact hid
  · rw [h1]
  · rw [h1]; exact stop_recording_idle _ _ rfl
  · intro t g ht; exact stop_recording_idle t g ht

/-- C5 witness: the idempotence theorem instantiated at the concrete Active
state activeA. -/
theorem stop_recording_idempotent_witness :
    activeA.is_recording = true ∧ (stop_recording activeA false).1 = some "A" :=
  ⟨rfl, (stop_recording_idempotent activeA "A" false false rfl rfl).1⟩

/-- C6: when the device stop calls raise during stop_recording on an Active
state, the error is absorbed, the state still transitions to Idle with all
device handles cleared, the stopped session id is still returned, and the
outcome is identical to the one where the device calls succeed. -/
theorem stop_recording_absorbs_device_errors (s : RecState) (rid : String)
    (h : s.is_recording = true) (hid : s.recording_id = some rid) :
    (stop_recording s true).1 = some rid ∧
    (stop_recording s true).2.is_recording = false ∧
    (stop_recording s true).2.picam2 = none ∧
    (stop_recording s true).2.encoder = none ∧
    (stop_recording s true).2.output = none ∧
    stop_recording s true = stop_recording s false := by
  have ht := stop_recording_active s true h
  have hf := stop_recording_active s false h
  rw [ht, hf]
  exact ⟨hid, rfl, rfl, rfl, rfl, rfl⟩

/-- C6 witness: the absorption theorem instantiated at the concrete Active
state activeA with failing device stop calls. -/
theorem stop_recording_absorbs_device_errors_witness :
    activeA.is_recording = true ∧ (stop_recording activeA true).1 = some "A" :=
  ⟨rfl, (stop_recording_absorbs_device_errors activeA "A" rfl rfl).1⟩

/-- C7 counterexample: the claim says a Stop carrying an expectedSessionId
different from the active session id leaves the session Active and
unchanged; but stop_recording has no expected-session parameter, so a
caller holding the mismatched expected id B still stops the active session
A: the state leaves Active and the stop returns the id of A. -/
theorem stop_ignores_expected_session_id :
    activeA.recording_id = some "A" ∧
    (stop_with_expected (some "B") activeA false).2.is_recording = false ∧
    (stop_with_expected (some "B") activeA false).1 = some "A" :=
  ⟨rfl, rfl, rfl⟩

/-- C7 amended: stop_recording accepts no expectedSessionId, so every stop
call issued while a session is Active stops the active session and returns
its id, whatever expected session id the caller holds. -/
theorem stop_with_expected_always_stops_active (expectedSessionId : Option String)
    (s : RecState) (rid : String) (sf : Bool)
    (h : s.is_recording = true) (hid : s.recording_id = some rid) :
    (stop_with_expected expectedSessionId s sf).1 = some rid ∧
    (stop_with_expected expectedSessionId s sf).2.is_recording = false := by
  unfold stop_with_expected
  rw [stop_recording_active s sf h]
  exact ⟨hid, rfl⟩

/-- C7 amended witness: the amended theorem instantiated at activeA with a
mismatched expected session id. -/
theorem stop_with_expected_always_stops_active_witness :
    activeA.is_recording = true ∧
    (stop_with_expected (some "Z") activeA false).1 = some "A" :=
  ⟨rfl, (stop_with_expected_always_stops_active (some "Z") activeA "A" false rfl rfl).1⟩

/-- C10: on an Active state stop_recording changes only is_recording,
picam2, encoder and output; recording_id, filename, start_time, duration,
max_file_size and monitor_thread keep the stopped session values. -/
theorem stop_recording_frame (s : RecState) (sf : Bool)
    (h : s.is_recording = true) :
    ((stop_recording s sf).2.recording_id = s.recording_id ∧
     (stop_recording s sf).2.filename = s.filename ∧
     (stop_recording s sf).2.start_time = s.start_time ∧
     (stop_recording s sf).2.duration = s.duration ∧
     (stop_recording s sf).2.max_file_size = s.max_file_size ∧
     (stop_recording s sf).2.monitor_thread = s.monitor_thread) ∧
    ((stop_recording s sf).2.is_recording = false ∧
     (stop_recording s sf).2.picam2 = none ∧
     (stop_recording s sf).2.encoder = none ∧
     (stop_recording s sf).2.output = none) := by
  rw [stop_recording_active s sf h]
  exact ⟨⟨rfl, rfl, rfl, rfl, rfl, rfl⟩, rfl, rfl, rfl, rfl⟩

/-- C10 witness: the frame theorem instantiated at activeA. -/
theorem stop_recording_frame_witness :
    activeA.is_recording = true ∧
    (stop_recording activeA false).2.recording_id = activeA.recording_id :=
  ⟨rfl, (stop_recording_frame activeA false rfl).1.1⟩

/-- C1 (amended to the service variant): in the service variant, whatever
device bring-up step raises inside start_recording, the call surfaces a
device error, leaves is_recording false with picam2, encoder and output all
cleared, and a subsequent non-concurrent start_recording with a working
device succeeds and becomes Active. -/
theorem start_vcs_device_failure_rolls_back (s : RecState)
    (recording_id filename : String) (duration max_file_size : Option Nat)
    (now : Nat) (df : DevFail) (rid2 fn2 : String) (dur2 mfs2 : Option Nat)
    (now2 : Nat) (h : s.is_recording = false) :
    (start_recording_vcs s recording_id filename duration max_file_size now (some df)).1
        = Except.error StartExn.deviceError ∧
    (start_recording_vcs s recording_id filename duration max_file_size now (some df)).2.is_recording
        = false ∧
    (start_recording_vcs s recording_id filename duration max_file_size now (some df)).2.picam2
        = none ∧
    (start_recording_vcs s recording_id filename duration max_file_size now (some df)).2.encoder
        = none ∧
    (start_recording_vcs s recording_id filename duration max_file_size now (some df)).2.output
        = none ∧
    (start_recording_vcs
        (start_recording_vcs s recording_id filename duration max_file_size now (some df)).2
        rid2 fn2 dur2 mfs2 now2 none).1 = Except.ok () ∧
    (start_recording_vcs
        (start_recording_vcs s recording_id filename duration max_file_size now (some df)).2
        rid2 fn2 dur2 mfs2 now2 none).2.is_recording = true := by
  cases df <;> simp [start_recording_vcs, cleanupOnStartError, h]

/-- C1 witness: the rollback theorem instantiated at the initial state with
a failure in the configure step. -/
theorem start_vcs_device_failure_rolls_back_witness :
    initialState.is_recording = false ∧
    (start_recording_vcs initialState "A" "fileA.mp4" none none 0
        (some DevFail.configure)).2.picam2 = none :=
  ⟨rfl, (start_vcs_device_failure_rolls_back initialState "A" "fileA.mp4" none none 0
          DevFail.configure "B" "fileB.mp4" none none 5 rfl).2.2.1⟩

/-- C1 counterexample: in the legacy variant there is no rollback handler:
a device failure in picam2.start() propagates with picam2 still set, so the
claim that every partially acquired device resource is released (picam2
None) after a failing Start is false for that variant, even though
is_recording stays false. -/
theorem start_legacy_failure_leaves_picam2 :
    (start_recording_legacy initialState "A" "fileA.mp4" none none 0
        (some DevFail.camStart)).1 = Except.error StartExn.deviceError ∧
    (start_recording_legacy initialState "A" "fileA.mp4" none none 0
        (some DevFail.camStart)).2.picam2 = some () ∧
    (start_recording_legacy initialState "A" "fileA.mp4" none none 0
        (some DevFail.camStart)).2.is_recording = false :=
  ⟨rfl, rfl, rfl⟩

/-- C2 (amended to the service variant): in every state of the service
variant reachable by completed start_recording and stop_recording calls,
picam2 is set if and only if is_recording is true. -/
theorem reachable_vcs_picam2_iff_recording (s : RecState) (h : ReachableVCS s) :
    s.picam2.isSome = true ↔ s.is_recording = true := by
  induction h with
  | init => simp [initialState]
  | start s rid fn dur mfs now fail _ ih =>
      by_cases hrec : s.is_recording = true
      · simpa [start_recording_vcs, hrec] using ih
      · have hrec' : s.is_recording = false := by
          cases hb : s.is_recording
          · rfl
          · exact absurd hb hrec
        cases fail with
        | none => simp [start_recording_vcs, hrec']
        | some df => cases df <;> simp [start_recording_vcs, cleanupOnStartError, hrec']
  | stop s sf _ ih =>
      by_cases hrec : s.is_recording = true
      · rw [stop_recording_active s sf hrec]
        simp
      · have hrec' : s.is_recording = false := by
          cases hb : s.is_recording
          · rfl
          · exact absurd hb hrec
        rw [stop_recording_idle s sf hrec']
        exact ih

/-- C2 witness: the invariant instantiated at the reachable Active state
reached by a successful start of session A from the initial state. -/
theorem reachable_vcs_picam2_iff_recording_witness :
    afterStartA.picam2.isSome = true ↔ afterStartA.is_recording = true :=
  reachable_vcs_picam2_iff_recording afterStartA
    (ReachableVCS.start initialState "A" "fileA.mp4" (some 1000) none 0 none
      ReachableVCS.init)

/-- C2 counterexample: in the legacy variant, a start_recording that fails
in the configure step (a completed, failed operation from the initial
state) leaves picam2 set while is_recording is false, so the claimed iff
between a set picam2 and is_recording does not hold for that variant. -/
theorem legacy_failed_start_breaks_handle_invariant :
    ¬ (((start_recording_legacy initialState "B" "fileB.mp4" none none 0
          (some DevFail.configure)).2.picam2.isSome = true) ↔
       ((start_recording_legacy initialState "B" "fileB.mp4" none none 0
          (some DevFail.configure)).2.is_recording = true)) := by
  decide

/-- Helper: on an Active state whose duration limit is set and reached
(elapsed at least the limit), the tick stops the recording and ends the
loop. -/
theorem monitor_tick_dur_reached (s : RecState) (now : Nat) (fe : Bool)
    (sr : Option Nat) (sf : Bool) (d st : Nat) (hAct : s.is_recording = true)
    (hd : s.duration = some d) (hst : s.start_time = some st)
    (hle : d ≤ now - st) :
    monitor_recording_tick s now fe sr sf = ((stop_recording s sf).2, true) := by
  simp [monitor_recording_tick, hAct, hd, hst, hle]

/-- Helper: on an Active state whose duration limit does not fire, the tick
reduces to the file-size block. -/
theorem monitor_tick_dur_not_reached (s : RecState) (now : Nat) (fe : Bool)
    (sr : Option Nat) (sf : Bool) (hAct : s.is_recording = true)
    (hdur : ∀ d st, s.duration = some d → s.start_time = some st → now - st < d) :
    monitor_recording_tick s now fe sr sf = monitor_size_check s fe sr sf := by
  unfold monitor_recording_tick
  rw [hAct]
  rcases hd : s.duration with _ | d
  · simp [hd]
  · rcases hst : s.start_time with _ | st
    · simp [hd, hst]
    · have hlt := hdur d st hd hst
      simp [hd, hst, Nat.not_le.mpr hlt]

/-- Helper: the file-size block stops the recording and ends the loop when
the limit is set, the file is observed and its size is at least the limit. -/
theorem monitor_size_check_fires (s : RecState) (fe : Bool) (sr : Option Nat)
    (sf : Bool) (m sz : Nat) (f : String) (hm : s.max_file_size = some m)
    (hf : s.filename = some f) (hfe : f.isEmpty = false) (hex : fe = true)
    (hsr : sr = some sz) (hsz : m ≤ sz) :
    monitor_size_check s fe sr sf = ((stop_recording s sf).2, true) := by
  simp [monitor_size_check, hm, hf, hfe, hex, hsr, hsz]

/-- Helper: the file-size block is a no-op continue whenever every observed
size is strictly below the limit (in particular when the limit or the
filename is unset, or the stat raised). -/
theorem monitor_size_check_below (s : RecState) (fe : Bool) (sr : Option Nat)
    (sf : Bool)
    (hsize : ∀ m sz, s.max_file_size = some m → sr = some sz → sz < m) :
    monitor_size_check s fe sr sf = (s, false) := by
  rcases hm : s.max_file_size with _ | m
  · simp [monitor_size_check, hm]
  · rcases hf : s.filename with _ | f
    · simp [monitor_size_check, hm, hf]
    · rcases hsr : sr with _ | sz
      · simp [monitor_size_check, hm, hf, hsr]
      · have hlt := hsize m sz hm hsr
        simp [monitor_size_check, hm, hf, hsr, Nat.not_le.mpr hlt]

/-- Helper: the file-size block never stops when os.path.exists observed no
file. -/
theorem monitor_size_check_no_file (s : RecState) (sr : Option Nat) (sf : Bool) :
    monitor_size_check s false sr sf = (s, false) := by
  rcases hm : s.max_file_size with _ | m <;>
    rcases hf : s.filename with _ | f <;>
      simp [monitor_size_check, hm, hf]

/-- C4: on a tick with the session Active, (a) a set and reached duration
limit stops the session and ends the loop; (b) otherwise a set size limit
with the file observed at a size at least the limit (exactly the limit
included) stops the session and ends the loop; (c) while elapsed is
strictly below the duration limit and every observed size is strictly
below the size limit the session is not stopped and the loop continues;
and a missing output file (d) or a stat error (e) is treated as not yet
exceeded, terminating neither the watchdog loop nor the session. -/
theorem monitor_tick_limit_semantics (s : RecState) (now : Nat) (fe : Bool)
    (sr : Option Nat) (sf : Bool) (hAct : s.is_recording = true) :
    (∀ d st, s.duration = some d → s.start_time = some st → d ≤ now - st →
        monitor_recording_tick s now fe sr sf = ((stop_recording s sf).2, true)) ∧
    (∀ m f sz, (∀ d st, s.duration = some d → s.start_time = some st → now - st < d) →
        s.max_file_size = some m → s.filename = some f → f.isEmpty = false →
        fe = true → sr = some sz → m ≤ sz →
        monitor_recording_tick s now fe sr sf = ((stop_recording s sf).2, true)) ∧
    ((∀ d st, s.duration = some d → s.start_time = some st → now - st < d) →
     (∀ m sz, s.max_file_size = some m → sr = some sz → sz < m) →
        monitor_recording_tick s now fe sr sf = (s, false)) ∧
    ((∀ d st, s.duration = some d → s.start_time = some st → now - st < d) →
     fe = false →
        monitor_recording_tick s now fe sr sf = (s, false)) ∧
    ((∀ d st, s.duration = some d → s.start_time = some st → now - st < d) →
     sr = none →
        monitor_recording_tick s now fe sr sf = (s, false)) := by
  refine ⟨?_, ?_, ?_, ?_, ?_⟩
  · intro d st hd hst hle
    exact monitor_tick_dur_reached s now fe sr sf d st hAct hd hst hle
  · intro m f sz hdur hm hf hfne hex hsr hsz
    rw [monitor_tick_dur_not_reached s now fe sr sf hAct hdur]
    exact monitor_size_check_fires s fe sr sf m sz f hm hf hfne hex hsr hsz
  · intro hdur hsize
    rw [monitor_tick_dur_not_reached s now fe sr sf hAct hdur]
    exact monitor_size_check_below s fe sr sf hsize
  · intro hdur hex
    rw [monitor_tick_dur_not_reached s now fe sr sf hAct hdur]
    rw [hex]
    exact monitor_size_check_no_file s sr sf
  · intro hdur hsr
    rw [monitor_tick_dur_not_reached s now fe sr sf hAct hdur]
    refine monitor_size_check_below s fe sr sf ?_
    intro m sz _ hcontra
    rw [hsr] at hcontra
    cases hcontra

/-- C4 witness: the tick semantics instantiated at activeB at time 102,
where the duration limit 2 is exactly reached, taking branch (a). -/
theorem monitor_tick_limit_semantics_witness :
    activeB.is_recording = true ∧
    monitor_recording_tick activeB 102 false none false
      = ((stop_recording activeB false).2, true) :=
  ⟨rfl, (monitor_tick_limit_semantics activeB 102 false none false rfl).1 2 100
          rfl rfl (by norm_num)⟩

/-- C3 counterexample: the watchdog body captures nothing at spawn time and
stop_recording takes no session id.  Session A starts at time 0 with
duration limit 1000, is stopped externally, and session B starts at time
100 with duration limit 2.  When the still-running watchdog spawned for A
ticks at time 102, it re-reads the shared state, applies the duration limit
of B (102 - 100 is at least 2, while under the captured limits of A it
would be 102 - 0, far below 1000) and stops B: the tick is not a no-op on
the later session. -/
theorem stale_watchdog_tick_stops_later_session :
    afterStartB.is_recording = true ∧
    afterStartB.recording_id = some "B" ∧
    (monitor_recording_tick afterStartB 102 false none false).1.is_recording = false ∧
    (monitor_recording_tick afterStartB 102 false none false).1.recording_id = some "B" ∧
    102 - 0 < 1000 :=
  ⟨rfl, rfl, rfl, rfl, by norm_num⟩

/-- C3 amended: because each tick re-reads the current shared state, a
stale watchdog tick arriving while a later session is Active is a no-op
exactly while the later session's own current limits are strictly
unreached; the limits of the session the watchdog was spawned for are gone
from the state and are never applied. -/
theorem watchdog_tick_noop_below_current_limits (s : RecState) (now : Nat)
    (fe : Bool) (sr : Option Nat) (sf : Bool) (hAct : s.is_recording = true)
    (hdur : ∀ d st, s.duration = some d → s.start_time = some st → now - st < d)
    (hsize : ∀ m sz, s.max_file_size = some m → sr = some sz → sz < m) :
    monitor_recording_tick s now fe sr sf = (s, false) := by
  rw [monitor_tick_dur_not_reached s now fe sr sf hAct hdur]
  exact monitor_size_check_below s fe sr sf hsize

/-- C3 amended witness: a stale tick at time 101 on the Active session B,
whose duration limit 2 is not yet reached (elapsed 1), changes nothing. -/
theorem watchdog_tick_noop_below_current_limits_witness :
    activeB.is_recording = true ∧
    monitor_recording_tick activeB 101 true (some 5) false = (activeB, false) := by
  refine ⟨rfl, watchdog_tick_noop_below_current_limits activeB 101 true (some 5) false rfl ?_ ?_⟩
  · intro d st hd hst
    have hd2 : d = 2 := by
      have : some (2 : Nat) = some d := hd
      exact (Option.some.injEq _ _).mp this.symm
    have hst2 : st = 100 := by
      have : some (100 : Nat) = some st := hst
      exact (Option.some.injEq _ _).mp this.symm
    subst hd2
    subst hst2
    norm_num
  · intro m sz hm
    have : (none : Option Nat) = some m := hm
    cases this

/-- C8: in src/capture_video.py the HTTPException(409) raised at the lock
check when a session is Active is caught by the blanket except Exception
and re-raised as a 500, so the AlreadyRecording rejection does not reach
the caller as 409 in that variant; the api_server.py variant re-raises it
unchanged and does return 409 (with the state untouched), and a device
failure maps to 500 in the api_server variant as the claim says. -/
theorem capture_video_already_recording_returns_500 :
    (start_endpoint_capture_video activeA "C" "fileC.mp4" none none 0 none).1
        = HttpResp.err 500 "Failed to start recording" ∧
    (start_endpoint_capture_video activeA "C" "fileC.mp4" none none 0 none).2 = activeA ∧
    (start_endpoint_api_server activeA "C" "fileC.mp4" none none 0 none).1
        = HttpResp.err 409 "Recording already in progress" ∧
    (start_endpoint_api_server activeA "C" "fileC.mp4" none none 0 none).2 = activeA ∧
    (start_endpoint_api_server initialState "C" "fileC.mp4" none none 0
        (some DevFail.camStart)).1 = HttpResp.err 500 "Failed to start recording" :=
  ⟨rfl, rfl, rfl, rfl, rfl⟩

/-- C9: if the session observed Active under the lock ends before the
endpoint calls stop_recording (for example the watchdog fired in between),
stop_recording returns none and POST /record/stop responds 500 with detail
Error stopping recording, never 404 and never success; and the endpoint
responds 404 exactly when the initial locked check observed no active
session. -/
theorem stop_endpoint_race_returns_500 (sLock sNow : RecState) (sf : Bool)
    (h1 : sLock.is_recording = true) (h2 : sNow.is_recording = false) :
    stop_endpoint sLock sNow sf = (HttpResp.err 500 "Error stopping recording", sNow) ∧
    (∀ t1 t2 : RecState, ∀ g : Bool,
        ((stop_endpoint t1 t2 g).1 = HttpResp.err 404 "No recording in progress"
          ↔ t1.is_recording = false)) := by
  constructor
  · unfold stop_endpoint
    rw [h1, stop_recording_idle sNow sf h2]
    simp
  · intro t1 t2 g
    by_cases ht : t1.is_recording = true
    · simp only [stop_endpoint, ht, Bool.not_true, Bool.false_eq_true, if_false]
      constructor
      · intro hresp
        split at hresp <;> simp at hresp
      · intro hfalse
        exact absurd hfalse (by decide)
    · have ht' : t1.is_recording = false := by
        cases hb : t1.is_recording
        · rfl
        · exact absurd hb ht
      simp [stop_endpoint, ht']

/-- C9 witness: the race theorem instantiated with the Active state activeA
observed under the lock and the already-stopped initial state when
stop_recording runs. -/
theorem stop_endpoint_race_returns_500_witness :
    activeA.is_recording = true ∧
    stop_endpoint activeA initialState false
      = (HttpResp.err 500 "Error stopping recording", initialState) :=
  ⟨rfl, (stop_endpoint_race_returns_500 activeA initialState false rfl rfl).1⟩
